import Mathlib

/-!
Verification of the tritonbench benchmark runner (`run.py`) against its
design specification.

The embedding models the orchestration core of `run.py`:
* `Args` mirrors the `argparse.Namespace` produced by `get_parser`
  (only the fields the core reads; defaults follow the `add_argument` calls).
* Observable side effects (console prints, file writes, the GPU lockdown
  scope, operator resolution/execution) are events in a trace.
* External collaborators (the operator registry/loader, the concrete
  benchmark instances, the collection lister) are parameters: a function
  `String → OpBehavior` says, for each operator name, whether resolution
  raises, whether `run()` raises, and whether `plot()` raises
  `NotImplementedError`; a function `String → List String` models
  `list_operators_by_collection`.
* This models the open-source build: `IS_FBCODE` is false, so
  `usage_report_logger` is a no-op lambda (run.py lines 28-34) and the
  `log_scuba` branch (lines 217-230) is dead; neither produces an event.
-/

namespace Tritonbench

/-- Mirror of the parsed argument record built by `get_parser` (run.py
lines 39-190).  Field names follow the `argparse` destinations.  `op`,
`metrics`, `only`, `baseline` and `num_inputs` default to `None`
(modelled as `none`); string/int defaults follow the `default=` values.
`warmup`/`iter` default to `DEFAULT_WARMUP`/`DEFAULT_RUN_ITERS`, imported
from outside this file's source; their values are immaterial here. -/
structure Args where
  op : Option String
  op_collection : String
  mode : String
  bwd : Bool
  fwd_bwd : Bool
  fwd_no_grad : Bool
  precision : String
  device : String
  warmup : Nat
  iter : Nat
  csv : Bool
  dump_csv : Bool
  skip_print : Bool
  plot : Bool
  ci : Bool
  metrics : Option String
  metrics_gpu_backend : String
  only : Option String
  baseline : Option String
  num_inputs : Option Int
  keep_going : Bool
  input_id : Int
  test_only : Bool
  dump_ir : Bool
  gpu_lockdown : Bool
  operator_loader : Bool
  deriving DecidableEq, Repr

/-- Python truthiness of `args.op` (an `Optional[str]`): truthy iff it is
present and non-empty.  Used by `if args.op and args.ci` (run.py line 184)
and `if args.op` (line 257). -/
def opSet (a : Args) : Bool :=
  match a.op with
  | none => false
  | some s => s != ""

/-- One observable side effect of the orchestration core. -/
inductive Event where
  /-- Entering the `with gpu_lockdown(args.gpu_lockdown)` scope
  (run.py line 262); the flag records `args.gpu_lockdown`. -/
  | acquire (enabled : Bool)
  /-- The `__exit__` of the `gpu_lockdown` context manager running. -/
  | release (enabled : Bool)
  /-- `load_opbench_by_name`/`load_opbench_by_name_from_loader` being
  invoked for the named operator (run.py lines 194-197). -/
  | resolveOp (name : String)
  /-- `Opbench(tb_args=args, extra_args=extra_args)` (run.py line 204). -/
  | constructOp (name : String)
  /-- `opbench.run(args.warmup, args.iter)` being invoked (line 209). -/
  | runOp (name : String)
  /-- `metrics = opbench.output` in the `finally` block (line 211). -/
  | readOutput (name : String)
  /-- `print(metrics)`: text render of the result to stdout (line 216). -/
  | printMetrics (name : String)
  /-- `metrics.write_csv_to_file(sys.stdout)`: CSV to stdout (line 214). -/
  | printCsv (name : String)
  /-- `opbench.plot()` completing normally (line 233). -/
  | plotOk (name : String)
  /-- The `NotImplementedError` skip message printed for plot (line 235). -/
  | printPlotSkip (name : String)
  /-- `metrics.write_csv(TRITON_BENCH_CSV_DUMP_PATH)`: the CSV file written
  to the fixed temporary-directory dump location (line 239). -/
  | writeCsvFile (name : String)
  /-- `print(f"[TritonBench] Dumped csv to {path}")` (line 240). -/
  | printDumpPath (name : String)
  /-- `run_ci()`: the CI validation sweep (run.py line 254). -/
  | runCi
  deriving DecidableEq, Repr

/-- Whether an event is console (stdout) output. -/
def isConsole : Event → Bool
  | Event.printMetrics _ => true
  | Event.printCsv _ => true
  | Event.printPlotSkip _ => true
  | Event.printDumpPath _ => true
  | _ => false

/-- Whether an event touches the Hardware Lockdown Resource. -/
def isLockEvent : Event → Bool
  | Event.acquire _ => true
  | Event.release _ => true
  | _ => false

/-- Behaviour of the external collaborators for one operator name: does
resolving/constructing it raise, does its `run()` raise, does its `plot()`
raise `NotImplementedError`. -/
structure OpBehavior where
  resolveRaises : Bool
  runRaises : Bool
  plotNotImpl : Bool
  deriving DecidableEq, Repr

/-- Did a Python exception escape a piece of code? -/
inductive Outcome where
  | ok
  | exc
  deriving DecidableEq, Repr

/-- The mode-override block of `_run` (run.py lines 198-203):

    if args.fwd_bwd: args.mode = "fwd_bwd"
    if args.bwd: args.mode = "bwd"
    if args.fwd_no_grad: args.mode = "fwd_no_grad"

Three sequential conditional assignments to `args.mode`; the last
executed assignment wins. -/
def resolveMode (a : Args) : Args :=
  let a1 := if a.fwd_bwd then { a with mode := "fwd_bwd" } else a
  let a2 := if a1.bwd then { a1 with mode := "bwd" } else a1
  if a2.fwd_no_grad then { a2 with mode := "fwd_no_grad" } else a2

/-- The metrics-output part of the `finally` block of `_run` (run.py
lines 211-240), as the trace of events it emits, in program order:
read `opbench.output`; console render unless `skip_print` (CSV if `csv`,
else text); plot attempt if `plot` (a `NotImplementedError` degrades to a
printed skip message); if `dump_csv`, write the CSV file to
`TRITON_BENCH_CSV_DUMP_PATH` and print the dumped path. -/
def finallyEvents (a : Args) (b : OpBehavior) (name : String) : List Event :=
  [Event.readOutput name]
    ++ (if a.skip_print then []
        else if a.csv then [Event.printCsv name] else [Event.printMetrics name])
    ++ (if a.plot then
          if b.plotNotImpl then [Event.printPlotSkip name] else [Event.plotOk name]
        else [])
    ++ (if a.dump_csv then [Event.writeCsvFile name, Event.printDumpPath name]
        else [])

/-- `_run` (run.py lines 193-241) for one operator name: resolve the
operator class (lines 194-197; a resolution failure raises before the
`try`), apply the mode overrides (lines 198-203), construct the instance
(line 204), then

    try:
        opbench.run(args.warmup, args.iter)
    finally:
        ... metrics output pipeline ...
        return metrics

The `finally` block always runs and ends with `return metrics`
(line 241).  By Python semantics, a `return` that executes inside a
`finally` clause discards the in-flight exception, so even when `run()`
raises, `_run` returns normally: the outcome is `ok` regardless of
`(b name).runRaises`.  Returns the (possibly mode-mutated) `args`, the
event trace, and the outcome. -/
def benchRun (b : String → OpBehavior) (a : Args) : Args × List Event × Outcome :=
  let name := a.op.getD ""
  if (b name).resolveRaises then
    (a, [Event.resolveOp name], Outcome.exc)
  else
    let a2 := resolveMode a
    (a2,
     Event.resolveOp name :: Event.constructOp name :: Event.runOp name
       :: finallyEvents a2 (b name) name,
     Outcome.ok)

/-- Python `str.split(sep)` with `sep = ","`, on the character list:
every comma is a separator, so leading/trailing/doubled commas yield
empty-string fields, never filtered. -/
def splitCommaChars : List Char → List (List Char)
  | [] => [[]]
  | c :: rest =>
    match splitCommaChars rest with
    | [] => [[]]
    | p :: ps => if c = ',' then [] :: p :: ps else (c :: p) :: ps

/-- `args.op.split(",")` (run.py line 258): Python `str.split` with an
explicit `","` separator. -/
def pySplitComma (s : String) : List String :=
  (splitCommaChars s.toList).map (fun l => String.mk l)

/-- Resolution of the operator batch (run.py lines 257-260):

    if args.op:
        ops = args.op.split(",")
    else:
        ops = list_operators_by_collection(args.op_collection)
-/
def resolveOps (collections : String → List String) (a : Args) : List String :=
  if opSet a then pySplitComma (a.op.getD "")
  else collections a.op_collection

/-- The batch loop body (run.py lines 263-265):

    for op in ops:
        args.op = op
        _run(args, extra_args)

`args` is one mutable namespace, so the `args.op = op` assignment and
the mode mutation inside `_run` persist across iterations; the model
threads the record through.  An exception escaping `_run` (operator
resolution failure) aborts the loop and propagates. -/
def batchLoop (b : String → OpBehavior) : Args → List String → Args × List Event × Outcome
  | a, [] => (a, [], Outcome.ok)
  | a, op :: rest =>
    let r := benchRun b { a with op := some op }
    match r.2.2 with
    | Outcome.ok =>
      let s := batchLoop b r.1 rest
      (s.1, r.2.1 ++ s.2.1, s.2.2)
    | Outcome.exc => (r.1, r.2.1, Outcome.exc)

/-- How a `run()` invocation terminates. -/
inductive RunStatus where
  /-- `parser.error(...)` (run.py line 185): argparse prints the usage
  and error to stderr and exits the process with status 2 (non-zero),
  before any operator work. -/
  | configError
  /-- Normal return. -/
  | ok
  /-- An exception propagated out of `run()` to the caller. -/
  | raised
  deriving DecidableEq, Repr

/-- `run` (run.py lines 244-265) on already-parsed arguments: the
`--op`/`--ci` conflict check performed inside `get_parser` (line 184,
`parser.error` exits before anything else), the CI short-circuit
(lines 251-255), batch resolution (lines 257-260), and the batch loop
under the `with gpu_lockdown(args.gpu_lockdown)` scope (lines 262-265).
A `with` statement runs `__exit__` exactly once when control leaves the
block, whether normally or by exception unwind, so `Event.release`
brackets the loop trace unconditionally; an exception escaping the loop
is re-raised after the release (`RunStatus.raised`).
`usage_report_logger` (line 248) is a no-op in the open-source build and
emits no event.  Returns the final argument record, the event trace, and
the termination status. -/
def run (collections : String → List String) (b : String → OpBehavior) (a : Args) :
    Args × List Event × RunStatus :=
  if opSet a && a.ci then
    (a, [], RunStatus.configError)
  else if a.ci then
    (a, [Event.runCi], RunStatus.ok)
  else
    let r := batchLoop b a (resolveOps collections a)
    (r.1,
     Event.acquire a.gpu_lockdown :: (r.2.1 ++ [Event.release a.gpu_lockdown]),
     match r.2.2 with
     | Outcome.ok => RunStatus.ok
     | Outcome.exc => RunStatus.raised)

/-- Arguments as parsed from an empty command line: every `store_true`
flag is `false`, `--op` and the other untyped optionals are `None`, and
the string/int defaults follow the parser declarations (run.py
lines 41-178).  `warmup`/`iter` stand in for `DEFAULT_WARMUP` and
`DEFAULT_RUN_ITERS`; their numeric values are not used by any claim. -/
def baseArgs : Args where
  op := none
  op_collection := "default"
  mode := "fwd"
  bwd := false
  fwd_bwd := false
  fwd_no_grad := false
  precision := "bypass"
  device := "cuda"
  warmup := 25
  iter := 100
  csv := false
  dump_csv := false
  skip_print := false
  plot := false
  ci := false
  metrics := none
  metrics_gpu_backend := "torch"
  only := none
  baseline := none
  num_inputs := none
  keep_going := false
  input_id := 0
  test_only := false
  dump_ir := false
  gpu_lockdown := false
  operator_loader := false

/-- An environment in which every operator resolves, runs and plots
without raising. -/
def benign : String → OpBehavior := fun _ => ⟨false, false, false⟩

/-- An argument record with the operator-name and mode fields blanked:
two records agree on every other field iff their erasures are equal. -/
def eraseOpMode (x : Args) : Args := { x with op := none, mode := "" }

/-- Environment for a three-operator batch in which only the first
operator's `run()` raises. -/
def firstRaises : String → OpBehavior :=
  fun s => { resolveRaises := false, runRaises := s == "add", plotNotImpl := false }

/-- Environment in which every operator's `run()` raises. -/
def allRunsRaise : String → OpBehavior :=
  fun _ => { resolveRaises := false, runRaises := true, plotNotImpl := false }

/-! ### Helper lemmas -/

theorem finallyEvents_lockFree (a : Args) (b : OpBehavior) (n : String) :
    (finallyEvents a b n).filter isLockEvent = [] := by
  unfold finallyEvents
  by_cases h1 : a.skip_print <;> by_cases h2 : a.csv <;> by_cases h3 : a.plot <;>
    by_cases h4 : b.plotNotImpl <;> by_cases h5 : a.dump_csv <;>
      simp [h1, h2, h3, h4, h5, isLockEvent, List.filter_append, List.filter]

theorem benchRun_lockFree (b : String → OpBehavior) (a : Args) :
    ((benchRun b a).2.1).filter isLockEvent = [] := by
  unfold benchRun
  by_cases h : (b (a.op.getD "")).resolveRaises
  · simp only [h, if_true, List.filter, isLockEvent]
  · simp only [h, Bool.false_eq_true, if_false]
    rw [List.filter_cons_of_neg, List.filter_cons_of_neg, List.filter_cons_of_neg,
      finallyEvents_lockFree] <;> simp [isLockEvent]

theorem batchLoop_lockFree (b : String → OpBehavior) :
    ∀ (ops : List String) (a : Args), ((batchLoop b a ops).2.1).filter isLockEvent = [] := by
  intro ops
  induction ops with
  | nil => intro a; simp [batchLoop]
  | cons op rest ih =>
    intro a
    rw [batchLoop]
    cases hout : (benchRun b { a with op := some op }).2.2 with
    | ok => simp [hout, List.filter_append, benchRun_lockFree, ih]
    | exc => simp [hout, benchRun_lockFree]

theorem not_mem_of_lockFree {l : List Event} (h : l.filter isLockEvent = [])
    {e : Event} (he : isLockEvent e = true) : e ∉ l := by
  intro hmem
  have := List.filter_eq_nil_iff.mp h e hmem
  simp [he] at this

theorem eraseOpMode_resolveMode (a : Args) :
    eraseOpMode (resolveMode a) = eraseOpMode a := by
  unfold resolveMode
  by_cases h1 : a.fwd_bwd <;> by_cases h2 : a.bwd <;> by_cases h3 : a.fwd_no_grad <;>
    simp [h1, h2, h3, eraseOpMode]

theorem eraseOpMode_setOp (a : Args) (op : Option String) :
    eraseOpMode { a with op := op } = eraseOpMode a := rfl

theorem eraseOpMode_benchRun (b : String → OpBehavior) (a : Args) :
    eraseOpMode (benchRun b a).1 = eraseOpMode a := by
  unfold benchRun
  by_cases h : (b (a.op.getD "")).resolveRaises <;> simp [h, eraseOpMode_resolveMode]

theorem eraseOpMode_batchLoop (b : String → OpBehavior) :
    ∀ (ops : List String) (a : Args), eraseOpMode (batchLoop b a ops).1 = eraseOpMode a := by
  intro ops
  induction ops with
  | nil => intro a; simp [batchLoop]
  | cons op rest ih =>
    intro a
    rw [batchLoop]
    cases hout : (benchRun b { a with op := some op }).2.2 with
    | ok =>
      simp only [hout]
      rw [ih, eraseOpMode_benchRun, eraseOpMode_setOp]
    | exc =>
      simp only [hout]
      rw [eraseOpMode_benchRun, eraseOpMode_setOp]

theorem run_trace_of_not_ci (collections : String → List String)
    (b : String → OpBehavior) (a : Args) (hci : a.ci = false) :
    (run collections b a).2.1
      = Event.acquire a.gpu_lockdown ::
          ((batchLoop b a (resolveOps collections a)).2.1
            ++ [Event.release a.gpu_lockdown]) := by
  simp [run, hci]

/-! ### Claims -/

/-- C4: for every combination of the three mode-override flags and any
base mode, the resolved Execution Mode is unique and follows the fixed
precedence of run.py lines 198-203: `fwd_no_grad` wins if set, else
`bwd` if set, else `fwd_bwd` if set, else the explicit base mode;
conflicting flag combinations resolve silently (the resolver is a total
function and raises nothing). -/
theorem c4_mode_precedence (a : Args) :
    (resolveMode a).mode =
      if a.fwd_no_grad then "fwd_no_grad"
      else if a.bwd then "bwd"
      else if a.fwd_bwd then "fwd_bwd"
      else a.mode := by
  unfold resolveMode
  by_cases h1 : a.fwd_bwd <;> by_cases h2 : a.bwd <;> by_cases h3 : a.fwd_no_grad <;>
    simp [h1, h2, h3]

/-- C5: for every batch invocation (CI flag clear), the Hardware Lockdown
Resource is acquired exactly once, as the very first event — hence before
the first operator runs — and released exactly once, as the very last
event — hence after the batch — regardless of which operators raised
(the operator environment `b` is arbitrary). -/
theorem c5_lockdown_exactly_once (collections : String → List String)
    (b : String → OpBehavior) (a : Args) (hci : a.ci = false) :
    (run collections b a).2.1.count (Event.acquire a.gpu_lockdown) = 1 ∧
    (run collections b a).2.1.count (Event.release a.gpu_lockdown) = 1 ∧
    (run collections b a).2.1.head? = some (Event.acquire a.gpu_lockdown) ∧
    (run collections b a).2.1.getLast? = some (Event.release a.gpu_lockdown) := by
  have hlf := batchLoop_lockFree b (resolveOps collections a) a
  have hacq : Event.acquire a.gpu_lockdown ∉ (batchLoop b a (resolveOps collections a)).2.1 :=
    not_mem_of_lockFree hlf rfl
  have hrel : Event.release a.gpu_lockdown ∉ (batchLoop b a (resolveOps collections a)).2.1 :=
    not_mem_of_lockFree hlf rfl
  rw [run_trace_of_not_ci collections b a hci]
  refine ⟨?_, ?_, rfl, ?_⟩
  · simp [List.count_cons, List.count_append, List.count_singleton,
      List.count_eq_zero.mpr hacq]
  · simp [List.count_cons, List.count_append, List.count_singleton,
      List.count_eq_zero.mpr hrel]
  · rw [← List.cons_append]
    exact List.getLast?_concat _

/-- C5 witness: the lockdown bracketing at a concrete two-operator
collection batch in which every operator's `run()` raises. -/
theorem c5_lockdown_exactly_once_witness :
    (run (fun _ => ["add", "sub"]) allRunsRaise baseArgs).2.1.count (Event.acquire false) = 1 ∧
    (run (fun _ => ["add", "sub"]) allRunsRaise baseArgs).2.1.count (Event.release false) = 1 ∧
    (run (fun _ => ["add", "sub"]) allRunsRaise baseArgs).2.1.head? = some (Event.acquire false) ∧
    (run (fun _ => ["add", "sub"]) allRunsRaise baseArgs).2.1.getLast?
      = some (Event.release false) :=
  c5_lockdown_exactly_once (fun _ => ["add", "sub"]) allRunsRaise baseArgs rfl

/-- C8: for every invocation that specifies both an explicit operator and
the CI flag, `parser.error` fires (run.py lines 184-185): the invocation
terminates as a configuration error — argparse exits the process with
status 2, a non-zero exit — and the event trace is empty: no operator
work, no output, no partial side effect. -/
theorem c8_op_ci_config_error (collections : String → List String)
    (b : String → OpBehavior) (a : Args) (hop : opSet a = true) (hci : a.ci = true) :
    (run collections b a).2.1 = [] ∧
    (run collections b a).2.2 = RunStatus.configError := by
  simp [run, hop, hci]

/-- C8 witness: `--op matmul --ci` is rejected with no side effects. -/
theorem c8_op_ci_config_error_witness :
    (run (fun _ => []) benign { baseArgs with op := some "matmul", ci := true }).2.1 = [] ∧
    (run (fun _ => []) benign { baseArgs with op := some "matmul", ci := true }).2.2
      = RunStatus.configError :=
  c8_op_ci_config_error (fun _ => []) benign
    { baseArgs with op := some "matmul", ci := true } (by decide) rfl

/-- C3 counterexample: `--op matmul --op-collection liger` — both an
explicit operator list and a named collection — is not rejected: no
configuration error is raised and the explicitly listed operator
executes. -/
theorem c3_counterexample :
    (run (fun _ => []) benign
        { baseArgs with op := some "matmul", op_collection := "liger" }).2.2
      ≠ RunStatus.configError ∧
    Event.runOp "matmul" ∈ (run (fun _ => []) benign
        { baseArgs with op := some "matmul", op_collection := "liger" }).2.1 := by
  decide

/-- C3 amended: specifying both an explicit operator list and a named
collection raises no configuration error (absent the CI flag); the
explicit list silently takes precedence — the batch is exactly the
comma-split of the explicit list and the collection argument is
ignored. -/
theorem c3_amended_op_wins (collections : String → List String)
    (b : String → OpBehavior) (a : Args) (hop : opSet a = true) (hci : a.ci = false) :
    resolveOps collections a = pySplitComma (a.op.getD "") ∧
    (run collections b a).2.2 ≠ RunStatus.configError := by
  constructor
  · simp [resolveOps, hop]
  · have h : (run collections b a).2.2
        = match (batchLoop b a (resolveOps collections a)).2.2 with
          | Outcome.ok => RunStatus.ok
          | Outcome.exc => RunStatus.raised := by
      simp [run, hci]
    rw [h]
    cases (batchLoop b a (resolveOps collections a)).2.2 <;> simp

/-- C3 witness: the amended behaviour at `--op matmul --op-collection
liger`. -/
theorem c3_amended_op_wins_witness :
    resolveOps (fun _ => ["softmax"])
        { baseArgs with op := some "matmul", op_collection := "liger" }
      = pySplitComma "matmul" ∧
    (run (fun _ => ["softmax"]) benign
        { baseArgs with op := some "matmul", op_collection := "liger" }).2.2
      ≠ RunStatus.configError :=
  c3_amended_op_wins (fun _ => ["softmax"]) benign
    { baseArgs with op := some "matmul", op_collection := "liger" } (by decide) rfl

/-- C2 counterexample: with `dump_csv` and `skip_print` set and the other
output flags clear, the invocation is not console-silent: the
`[TritonBench] Dumped csv to ...` line (run.py line 240) is printed to
the console (and is the only console output). -/
theorem c2_counterexample :
    ((run (fun _ => []) benign
        { baseArgs with op := some "matmul", dump_csv := true,
                        skip_print := true }).2.1.filter isConsole)
      = [Event.printDumpPath "matmul"] := by
  decide

/-- C2 amended: for every completed benchmark result, when `dump_csv` and
`skip_print` are set and `plot` is clear, the metrics-output pipeline
writes exactly one CSV file to the fixed temporary-directory dump
location, renders no metrics to the console, and its only console output
is the dumped-path notice. -/
theorem c2_amended_dump_quiet (a : Args) (b : OpBehavior) (name : String)
    (hd : a.dump_csv = true) (hs : a.skip_print = true) (hp : a.plot = false) :
    (finallyEvents a b name).count (Event.writeCsvFile name) = 1 ∧
    (finallyEvents a b name).filter isConsole = [Event.printDumpPath name] := by
  unfold finallyEvents
  simp [hd, hs, hp, isConsole, List.filter, List.count_cons, List.count_append]

/-- C2 witness: the amended pipeline behaviour at concrete flags. -/
theorem c2_amended_dump_quiet_witness :
    (finallyEvents { baseArgs with dump_csv := true, skip_print := true }
        (benign "matmul") "matmul").count (Event.writeCsvFile "matmul") = 1 ∧
    (finallyEvents { baseArgs with dump_csv := true, skip_print := true }
        (benign "matmul") "matmul").filter isConsole
      = [Event.printDumpPath "matmul"] :=
  c2_amended_dump_quiet { baseArgs with dump_csv := true, skip_print := true }
    (benign "matmul") "matmul" rfl rfl rfl

/-- C6 counterexample: the Run Configuration record is mutated after
construction: after the batch `--op softmax,gemm --bwd`, the record no
longer equals the one the batch started from (its operator-name field
holds the last batch entry and its mode field was overwritten). -/
theorem c6_counterexample :
    (run (fun _ => []) benign
        { baseArgs with op := some "softmax,gemm", bwd := true }).1
      ≠ { baseArgs with op := some "softmax,gemm", bwd := true } := by
  decide

/-- C6 amended: the batch loop reassigns the operator-name field on each
iteration (run.py line 264) and the controller overwrites the mode field
per the override flags (lines 198-203); every other field of the Run
Configuration is unchanged for the remainder of the invocation. -/
theorem c6_amended_only_op_mode_mutated (collections : String → List String)
    (b : String → OpBehavior) (a : Args) :
    eraseOpMode (run collections b a).1 = eraseOpMode a := by
  by_cases hop : opSet a <;> by_cases hci : a.ci <;>
    simp [run, hop, hci, eraseOpMode_batchLoop]

/-- C1: the claim says that with keep-going unset, an exception from
`run()` is re-raised after the partial metrics are reported and the later
operators in the batch never execute.  The code diverges: the
`return metrics` inside the `finally` block of `_run` (run.py line 241)
discards the in-flight exception (Python semantics of `return` in
`finally`), so in the 3-operator batch `--op add,sub,mul` whose first
operator's `run()` raises — keep-going unset — the 2nd and 3rd operators
still execute and the invocation reports success. -/
theorem c1_exception_swallowed :
    baseArgs.keep_going = false ∧
    (firstRaises "add").runRaises = true ∧
    (run (fun _ => []) firstRaises { baseArgs with op := some "add,sub,mul" }).2.2
      = RunStatus.ok ∧
    Event.runOp "sub" ∈ (run (fun _ => []) firstRaises
        { baseArgs with op := some "add,sub,mul" }).2.1 ∧
    Event.runOp "mul" ∈ (run (fun _ => []) firstRaises
        { baseArgs with op := some "add,sub,mul" }).2.1 := by
  decide

/-- C7: the claim says that when `run()` raises, the controller retrieves
the partial result in the guaranteed-execution block and renders it to
the console (skip-print clear) before the failure surfaces.  Retrieval
and rendering do happen, but the failure never surfaces: the
`return metrics` ending the `finally` block (run.py line 241) discards
the exception and `_run` returns normally to its caller. -/
theorem c7_failure_never_surfaces :
    (allRunsRaise "matmul").runRaises = true ∧
    Event.readOutput "matmul"
      ∈ (benchRun allRunsRaise { baseArgs with op := some "matmul" }).2.1 ∧
    Event.printMetrics "matmul"
      ∈ (benchRun allRunsRaise { baseArgs with op := some "matmul" }).2.1 ∧
    (benchRun allRunsRaise { baseArgs with op := some "matmul" }).2.2 = Outcome.ok := by
  decide

/-- C9 counterexample: an invocation with the CI flag set and an explicit
operator (`--op matmul --ci`) is rejected by the parser before the CI
sweep, so the sweep does not run — yet the claim quantifies over every
invocation with the CI flag set. -/
theorem c9_counterexample :
    Event.runCi ∉ (run (fun _ => []) benign
      { baseArgs with op := some "matmul", ci := true, gpu_lockdown := true }).2.1 := by
  decide

/-- C9 amended: for every invocation with the CI flag set, the Hardware
Lockdown Resource is neither acquired nor released, whatever the lockdown
flag's value; and when no explicit operator is specified, the CI
validation sweep runs and the function returns normally. -/
theorem c9_amended_ci_no_lockdown (collections : String → List String)
    (b : String → OpBehavior) (a : Args) (hci : a.ci = true) :
    (run collections b a).2.1.filter isLockEvent = [] ∧
    (opSet a = false →
      (run collections b a).2.1 = [Event.runCi] ∧
      (run collections b a).2.2 = RunStatus.ok) := by
  by_cases hop : opSet a
  · simp [run, hop, hci]
  · simp [run, hop, hci, isLockEvent, List.filter]

/-- C9 witness: `--ci --gpu-lockdown` with no operator: the sweep runs,
the function returns normally, and the lockdown is never touched. -/
theorem c9_amended_ci_no_lockdown_witness :
    ((run (fun _ => []) benign
        { baseArgs with ci := true, gpu_lockdown := true }).2.1.filter isLockEvent = []) ∧
    (run (fun _ => []) benign
        { baseArgs with ci := true, gpu_lockdown := true }).2.1 = [Event.runCi] ∧
    (run (fun _ => []) benign
        { baseArgs with ci := true, gpu_lockdown := true }).2.2 = RunStatus.ok := by
  refine ⟨(c9_amended_ci_no_lockdown (fun _ => []) benign
    { baseArgs with ci := true, gpu_lockdown := true } rfl).1, ?_, ?_⟩
  · exact ((c9_amended_ci_no_lockdown (fun _ => []) benign
      { baseArgs with ci := true, gpu_lockdown := true } rfl).2 rfl).1
  · exact ((c9_amended_ci_no_lockdown (fun _ => []) benign
      { baseArgs with ci := true, gpu_lockdown := true } rfl).2 rfl).2

/-- C10: an explicit operator argument with a trailing comma
(`--op matmul,`) comma-splits into entries that include the empty
string, which is passed unfiltered as a batch entry: the Operator
Resolver is invoked with the empty operator name. -/
theorem c10_empty_batch_entries :
    resolveOps (fun _ => []) { baseArgs with op := some "matmul," } = ["matmul", ""] ∧
    Event.resolveOp "" ∈ (run (fun _ => []) benign
      { baseArgs with op := some "matmul," }).2.1 := by
  decide

end Tritonbench
